import Mathlib

/-
Verification of the NovelScrapper scrape-orchestration engine.

The Python sources are shallowly embedded as executable Lean definitions:
Python `str` values become `List Char` (a sequence of code points), network
and filesystem effects become explicit oracle parameters (`httpOk`,
`fetchOk`, `writeOk`, the order-file contents), and Python exceptions become
an `Except` monad over an explicit exception type.  Display-only statements
of the sources (progress bars, colored prints, timing decorators, sleeps)
have no observable effect on the properties below and are omitted; every
control-flow decision of the embedded functions mirrors the corresponding
Python line.
-/

namespace NovelScrapper

/-- A Python string, modelled as its sequence of code points. -/
abbrev PyStr := List Char

/-- The Python exceptions that cross function boundaries in the sources:
`UnsupportedSiteError` (custom_errors), `requests` HTTP/transport failures
raised by `raise_for_status` / `requests.get` (the spec's FetchError),
`AttributeError` from BeautifulSoup lookups (the spec's StructureError),
and `OSError` from file writes (the spec's WriteError). -/
inductive PyExc where
  | unsupportedSiteError
  | httpError
  | attributeError
  | osError
deriving DecidableEq, Repr

/-- Python's substring test `sub in s` on strings. -/
def pyIn (sub s : PyStr) : Bool := decide (sub <:+: s)

/-- Embeds the membership test of `_scrape_and_save_fiction` line 275:
`(master + path + '\n') in order` — substring containment of the
fully-qualified URL followed by a newline, in the raw order-log text. -/
def order_contains (order url : PyStr) : Bool := pyIn (url ++ ['\n']) order

/-- Python's `s.split("\n")`: the code computes `order.split("\n")` to count
previously scraped chapters (line 249). -/
def pySplitNL : PyStr → List PyStr
  | [] => [[]]
  | c :: rest =>
    match pySplitNL rest with
    | [] => [[]]
    | l :: ls => if c = '\n' then [] :: l :: ls else (c :: l) :: ls

/-- Joins a list of lines with newline separators; inverse of `pySplitNL`. -/
def joinNL : List PyStr → PyStr
  | [] => []
  | [l] => l
  | l :: ls => l ++ '\n' :: joinNL ls

/-- The order-log text produced by appending `url + '\n'` for each url, as the
chapter loop builds `new_order` (line 283). -/
def catLines (urls : List PyStr) : PyStr :=
  (urls.map (fun u => u ++ ['\n'])).flatten

/-- The character class removed by `re.sub(r'[<>:"/\\|?*]', '', ...)` in
`_scrap_basic` line 331 and `gen_filepath` line 67. -/
def illegalFsChars : List Char := ['<', '>', ':', '"', '/', '\\', '|', '?', '*']

/-- Embeds `_scrap_basic` lines 330-331: `title.replace(" ", "_")`, then
removal of the filesystem-illegal characters.  Note: no truncation is
applied to the folder name. -/
def folder_name (title : PyStr) : PyStr :=
  (title.map fun c => if c = ' ' then '_' else c).filter
    fun c => !(illegalFsChars.contains c)

/-- Embeds `WebScraper.gen_filepath` lines 67-70: removal of the
filesystem-illegal characters, then `chapter_name[:255]`. -/
def gen_filepath_name (chapter_name : PyStr) : PyStr :=
  ((chapter_name.filter fun c => !(illegalFsChars.contains c)).take 255)

/-- Embeds `_get_order` lines 200-221: returns the order-file contents, or
`""` when the file does not exist (`none`). -/
def get_order (orderFile : Option PyStr) : PyStr :=
  match orderFile with
  | some contents => contents
  | none => []

/-- Embeds the final order-file write of `_scrape_and_save_fiction` lines
296-297: mode `"a"` (append to the existing contents) in update mode, mode
`"w"` (replace wholesale) otherwise. -/
def persist_order (update_mode : Bool) (existing new_order : PyStr) : PyStr :=
  if update_mode then existing ++ new_order else new_order

/-- Embeds `WebScraper.try_write` lines 42-52: the file write either succeeds
(`writeOk = true`) or raises `OSError`, which is re-raised exactly when
`ignore_errors` is false (the verbose print has no observable effect). -/
def try_write (ignore_errors : Bool) (writeOk : Bool) : Except PyExc Unit :=
  if writeOk then .ok ()
  else if !ignore_errors then .error .osError
  else .ok ()

/-- Embeds `RoyalRoadScraper.chapter_to_txt` / `WattpadScraper.chapter_to_txt`:
the chapter GET request runs outside any exception handler, so a transport
failure (`fetchOk = false`) raises unconditionally; otherwise the paragraphs
are extracted and handed to `try_write`.  The returned Bool records whether
the artifact file was actually written (true) or the write failed but the
`OSError` was swallowed by `ignore_errors` (false). -/
def chapter_to_txt (ignore_errors : Bool) (fetchOk writeOk : Bool) :
    Except PyExc Bool :=
  if !fetchOk then .error .httpError
  else
    match try_write ignore_errors writeOk with
    | .error e => .error e
    | .ok _ => .ok writeOk

/-- Embeds `RoyalRoadScraper.scrape_chapters` lines 23-52
(`WattpadScraper.scrape_chapters` has the same control shape):
`response.raise_for_status()` runs before the try/except block, so an HTTP
failure (`httpOk = false`) raises regardless of `ignore_errors`; only an
`AttributeError` while extracting the chapter list and title
(`parsed = none`) is gated by `ignore_errors`, in which case the
initializers `chapter_paths = []`, `title = ""` are returned. -/
def scrape_chapters (ignore_errors : Bool) (httpOk : Bool)
    (parsed : Option (List PyStr × PyStr)) :
    Except PyExc (List PyStr × PyStr) :=
  if !httpOk then .error .httpError
  else
    match parsed with
    | some r => .ok r
    | none => if !ignore_errors then .error .attributeError else .ok ([], [])

/-- Embeds the cap test of `_scrape_and_save_fiction` line 289:
`if self.chapter_limit and self.total_scraped_chapters == self.chapter_limit`.
Python truthiness: when `chapter_limit` is `None` or `0` the conjunction is
falsy and the equality is never consulted; otherwise the test is exact
equality of the running total with the limit. -/
def capReached (chapter_limit : Option Int) (total_scraped_chapters : Nat) : Bool :=
  match chapter_limit with
  | none => false
  | some c => c != 0 && ((total_scraped_chapters : Int) == c)

/-- Observable outcome of one fiction's chapter loop: the URLs passed to
`chapter_to_txt` (in order), the URLs whose artifact write succeeded, the
accumulated `new_order` string, and the final `total_scraped_chapters`. -/
structure LoopOut where
  fetched : List PyStr
  written : List PyStr
  new_order : PyStr
  total : Nat
deriving DecidableEq, Repr

/-- Embeds the chapter loop of `_scrape_and_save_fiction` lines 272-293:
skip a chapter when in update mode its fully-qualified URL (plus newline) is
a substring of the loaded order text; otherwise call the adapter's
`chapter_to_txt` (any exception propagates and aborts the whole function),
append the URL to `new_order`, increment the run-wide counter, and break the
loop when the cap test fires.  The rate-limit sleep is time-only and
omitted. -/
def scrapeLoop (update_mode ignore_errors : Bool) (chapter_limit : Option Int)
    (fetchOk writeOk : PyStr → Bool) (master order : PyStr) :
    List PyStr → Nat → Except PyExc LoopOut
  | [], total => .ok ⟨[], [], [], total⟩
  | path :: rest, total =>
    if update_mode && order_contains order (master ++ path) then
      scrapeLoop update_mode ignore_errors chapter_limit fetchOk writeOk
        master order rest total
    else
      match chapter_to_txt ignore_errors (fetchOk (master ++ path))
          (writeOk (master ++ path)) with
      | .error e => .error e
      | .ok didWrite =>
        if capReached chapter_limit (total + 1) then
          .ok ⟨[master ++ path], if didWrite then [master ++ path] else [],
               (master ++ path) ++ ['\n'], total + 1⟩
        else
          match scrapeLoop update_mode ignore_errors chapter_limit fetchOk
              writeOk master order rest (total + 1) with
          | .error e => .error e
          | .ok out =>
            .ok ⟨(master ++ path) :: out.fetched,
                 (if didWrite then [master ++ path] else []) ++ out.written,
                 (master ++ path) ++ ['\n'] ++ out.new_order,
                 out.total⟩

/-- The fixed adapter registry of `WebScraperManager.__init__` lines 62-65:
origins are compared by exact string equality. -/
def supported_sites : List PyStr :=
  ["https://www.royalroad.com".data, "https://www.wattpad.com".data]

/-- The per-fiction inputs of a run: the origin (scheme+host from
`urlparse`), the discovery response status and parse outcome, and the
contents of the fiction's order file (`none` when absent). -/
structure FictionInput where
  master : PyStr
  httpOk : Bool
  parsed : Option (List PyStr × PyStr)
  orderFile : Option PyStr

/-- Embeds `_scrap_basic` lines 302-335: registry lookup by exact membership
(`if master not in self.supported_sites: raise UnsupportedSiteError`), then
adapter discovery via `scrape_chapters`, then folder-name derivation.
Directory creation is a filesystem side effect with no observable value. -/
def scrap_basic (ignore_errors : Bool) (inp : FictionInput) :
    Except PyExc (PyStr × PyStr × List PyStr) :=
  if !(supported_sites.contains inp.master) then .error .unsupportedSiteError
  else
    match scrape_chapters ignore_errors inp.httpOk inp.parsed with
    | .error e => .error e
    | .ok (chapter_paths, title) => .ok (inp.master, folder_name title, chapter_paths)

/-- Observable outcome of `_scrape_and_save_fiction` for one fiction:
`logWrite = none` means the function returned before the order-file write
(zero discovered chapters); `logWrite = some s` means the string `s` was
written to the order file (mode append/replace per `persist_order`). -/
structure FictionOut where
  fetched : List PyStr
  written : List PyStr
  logWrite : Option PyStr
  total : Nat
deriving DecidableEq, Repr

/-- Embeds `_scrape_and_save_fiction` lines 225-299: `_scrap_basic` first
(its exceptions propagate), the order file is loaded only in update mode
(line 240), a fiction with zero chapters returns before the loop and before
the order-file write (lines 257-260), otherwise the chapter loop runs and
`new_order` is written to the order file (lines 296-297).  The progress-bar
bookkeeping of lines 246-269 is display-only and omitted. -/
def scrape_and_save_fiction (update_mode ignore_errors : Bool)
    (chapter_limit : Option Int) (fetchOk writeOk : PyStr → Bool)
    (inp : FictionInput) (total : Nat) : Except PyExc FictionOut :=
  match scrap_basic ignore_errors inp with
  | .error e => .error e
  | .ok (master, _folder, chapter_paths) =>
    let order := if update_mode then get_order inp.orderFile else []
    if chapter_paths.length = 0 then .ok ⟨[], [], none, total⟩
    else
      match scrapeLoop update_mode ignore_errors chapter_limit fetchOk writeOk
          master order chapter_paths total with
      | .error e => .error e
      | .ok out => .ok ⟨out.fetched, out.written, some out.new_order, out.total⟩

/-- Embeds the batch loop of `_config_process` lines 177-198: only
`UnsupportedSiteError` is caught; inside the handler, `if
self.ignore_errors: continue` — and since the handler is the last statement
of the loop body, falling off its end also reaches the next iteration, so
both branches continue the batch.  Any other exception propagates and aborts
the remainder of the batch.  The result records `none` for a skipped fiction
and threads the run-wide counter through the batch. -/
def config_process (update_mode ignore_errors : Bool)
    (chapter_limit : Option Int) (fetchOk writeOk : PyStr → Bool) :
    List FictionInput → Nat → Except PyExc (List (Option FictionOut) × Nat)
  | [], total => .ok ([], total)
  | inp :: rest, total =>
    match scrape_and_save_fiction update_mode ignore_errors chapter_limit
        fetchOk writeOk inp total with
    | .ok out =>
      match config_process update_mode ignore_errors chapter_limit fetchOk
          writeOk rest out.total with
      | .ok (outs, t) => .ok (some out :: outs, t)
      | .error e => .error e
    | .error .unsupportedSiteError =>
      if ignore_errors then
        match config_process update_mode ignore_errors chapter_limit fetchOk
            writeOk rest total with
        | .ok (outs, t) => .ok (none :: outs, t)
        | .error e => .error e
      else
        match config_process update_mode ignore_errors chapter_limit fetchOk
            writeOk rest total with
        | .ok (outs, t) => .ok (none :: outs, t)
        | .error e => .error e
    | .error e => .error e

/-- Spec-side definition, from the spec's words for the order-log membership
contract: "the URL (with its trailing line terminator) occurs as an exact
full line of the log" — i.e. the URL is one of the newline-terminated lines
(every element of `pySplitNL` except the final segment after the last
newline). -/
def specLineMember (order url : PyStr) : Prop :=
  url ∈ (pySplitNL order).dropLast

/-- Spec-side definition, from the spec's words for the Storage Folder Name:
"title with spaces replaced by underscores, the filesystem-illegal
characters stripped, and the result truncated to 255 code units". -/
def specStorageFolderName (title : PyStr) : PyStr :=
  (((title.map fun c => if c = ' ' then '_' else c).filter
      fun c => !(illegalFsChars.contains c)).take 255)

/-- The fully-qualified URLs of the chapters the loop does not skip: in
update mode, those whose URL-plus-newline is not a substring of the loaded
order text; in create mode, all of them. -/
def remainingChapters (update_mode : Bool) (order master : PyStr)
    (paths : List PyStr) : List PyStr :=
  (paths.filter fun p => !(update_mode && order_contains order (master ++ p))).map
    (fun p => master ++ p)

instance (order url : PyStr) : Decidable (specLineMember order url) :=
  inferInstanceAs (Decidable (url ∈ (pySplitNL order).dropLast))

/-- Splitting never yields an empty list of segments. -/
theorem pySplitNL_ne_nil (s : PyStr) : pySplitNL s ≠ [] := by
  induction s with
  | nil => simp [pySplitNL]
  | cons c rest ih =>
    simp only [pySplitNL]
    cases hm : pySplitNL rest with
    | nil => exact absurd hm ih
    | cons l ls => by_cases hc : c = '\n' <;> simp [hc]

/-- Structure of a split: either the whole string is its single segment, or
the string starts with its first segment followed by a newline. -/
theorem pySplitNL_cons_structure (s : PyStr) :
    ∀ {l : PyStr} {ls : List PyStr}, pySplitNL s = l :: ls →
    (ls = [] ∧ s = l) ∨ (∃ t, s = l ++ '\n' :: t ∧ pySplitNL t = ls) := by
  induction s with
  | nil =>
    intro l ls h
    simp only [pySplitNL, List.cons.injEq] at h
    exact Or.inl ⟨h.2.symm, h.1⟩
  | cons c rest ih =>
    intro l ls h
    simp only [pySplitNL] at h
    cases hm : pySplitNL rest with
    | nil => exact absurd hm (pySplitNL_ne_nil rest)
    | cons l' ls' =>
      rw [hm] at h
      dsimp only at h
      by_cases hc : c = '\n'
      · rw [if_pos hc] at h
        obtain ⟨h1, h2⟩ := List.cons.inj h
        subst hc
        exact Or.inr ⟨rest, by rw [← h1]; simp, by rw [hm, h2]⟩
      · rw [if_neg hc] at h
        obtain ⟨h1, h2⟩ := List.cons.inj h
        subst h2
        rcases ih hm with ⟨hls, hrest⟩ | ⟨t, hrest, ht⟩
        · subst hls
          exact Or.inl ⟨rfl, by rw [← h1, hrest]⟩
        · exact Or.inr ⟨t, by rw [hrest, ← h1]; simp, ht⟩

/-- Every newline-terminated full line of a text occurs, with its
terminator, as a contiguous substring of the text. -/
theorem mem_lines_sub : ∀ (lines : List PyStr) (s : PyStr),
    pySplitNL s = lines → ∀ url ∈ lines.dropLast, (url ++ ['\n']) <:+: s := by
  intro lines
  induction lines with
  | nil => intro s _ url hu; simp at hu
  | cons l ls ih =>
    intro s hs url hu
    cases ls with
    | nil => simp at hu
    | cons l₂ ls₂ =>
      rcases pySplitNL_cons_structure s hs with ⟨hnil, _⟩ | ⟨t, hst, ht⟩
      · exact absurd hnil (by simp)
      · rw [List.dropLast_cons_of_ne_nil (by simp)] at hu
        rcases List.mem_cons.mp hu with rfl | hu'
        · exact ⟨[], t, by rw [hst]; simp⟩
        · obtain ⟨s', t', h⟩ := ih t ht url hu'
          exact ⟨l ++ '\n' :: s', t', by rw [hst, ← h]; simp⟩

/-- An exact-full-line occurrence always passes the code's substring test. -/
theorem specLineMember_contains {order url : PyStr} (h : specLineMember order url) :
    order_contains order url = true :=
  decide_eq_true (mem_lines_sub (pySplitNL order) order rfl url h)

/-- Splitting a text that begins with a newline-terminated segment free of
embedded newlines peels off exactly that segment. -/
theorem pySplitNL_append_line : ∀ (u : PyStr), '\n' ∉ u → ∀ (t : PyStr),
    pySplitNL (u ++ '\n' :: t) = u :: pySplitNL t := by
  intro u
  induction u with
  | nil =>
    intro _ t
    simp only [List.nil_append, pySplitNL]
    cases hm : pySplitNL t with
    | nil => exact absurd hm (pySplitNL_ne_nil t)
    | cons l ls => simp
  | cons c u' ih =>
    intro hnl t
    have hc : c ≠ '\n' := fun h => hnl (h ▸ List.mem_cons_self c u')
    have h' : '\n' ∉ u' := fun h => hnl (List.mem_cons_of_mem c h)
    rw [List.cons_append]
    simp only [pySplitNL]
    rw [ih h' t]
    dsimp only
    rw [if_neg hc]

/-- Splitting the concatenation of newline-terminated entries recovers the
entries, plus the empty segment after the final newline. -/
theorem pySplitNL_catLines : ∀ (urls : List PyStr), (∀ u ∈ urls, '\n' ∉ u) →
    pySplitNL (catLines urls) = urls ++ [[]] := by
  intro urls
  induction urls with
  | nil => intro _; simp [catLines, pySplitNL]
  | cons u rest ih =>
    intro h
    have hu : '\n' ∉ u := h u (List.mem_cons_self u rest)
    have hr := ih (fun v hv => h v (List.mem_cons_of_mem u hv))
    simp only [catLines, List.map_cons, List.flatten_cons, List.append_assoc,
      List.singleton_append]
    rw [pySplitNL_append_line u hu]
    simp only [catLines] at hr
    rw [hr]
    simp

/-- With a falsy chapter limit (None or 0) the cap test never fires. -/
theorem capReached_falsy {cl : Option Int} (h : cl = none ∨ cl = some 0)
    (t : Nat) : capReached cl t = false := by
  rcases h with rfl | rfl <;> simp [capReached]

/-- When ignore_errors is false, a chapter call that returns normally has
actually written its artifact. -/
theorem chapter_to_txt_ok_noerr {fo wo d : Bool}
    (h : chapter_to_txt false fo wo = .ok d) : d = true := by
  cases fo <;> cases wo <;> simp_all [chapter_to_txt, try_write]

/-- Characterization of a normally-returning chapter loop: the written order
text is the concatenation of the fetched URLs each followed by a newline;
every successfully written artifact corresponds to a fetched URL; every
fetched URL is a fully-qualified URL of one of the listed chapters whose
skip test was false; and when ignore_errors is false every fetched chapter
was also written. -/
theorem scrapeLoop_ok_spec {um ie : Bool} {cl : Option Int} {f w : PyStr → Bool}
    {m o : PyStr} :
    ∀ {paths : List PyStr} {total : Nat} {out : LoopOut},
    scrapeLoop um ie cl f w m o paths total = .ok out →
    out.new_order = catLines out.fetched ∧
    out.written ⊆ out.fetched ∧
    (∀ u ∈ out.fetched, (∃ p ∈ paths, u = m ++ p) ∧
      (um && order_contains o u) = false) ∧
    (ie = false → out.written = out.fetched) := by
  intro paths
  induction paths with
  | nil =>
    intro total out hok
    simp only [scrapeLoop] at hok
    injection hok with h
    subst h
    simp [catLines]
  | cons p rest ih =>
    intro total out hok
    simp only [scrapeLoop] at hok
    cases hskip : (um && order_contains o (m ++ p)) with
    | true =>
      rw [hskip] at hok
      simp only [if_true] at hok
      obtain ⟨h1, h2, h3, h4⟩ := ih hok
      refine ⟨h1, h2, fun u hu => ?_, h4⟩
      obtain ⟨⟨p', hp', hup⟩, hcond⟩ := h3 u hu
      exact ⟨⟨p', List.mem_cons_of_mem _ hp', hup⟩, hcond⟩
    | false =>
      rw [hskip] at hok
      simp only [if_false, Bool.false_eq_true] at hok
      cases hctx : chapter_to_txt ie (f (m ++ p)) (w (m ++ p)) with
      | error e => rw [hctx] at hok; exact absurd hok (by simp)
      | ok didWrite =>
        rw [hctx] at hok
        dsimp only at hok
        cases hcap : capReached cl (total + 1) with
        | true =>
          rw [hcap] at hok
          simp only [if_true] at hok
          injection hok with h
          subst h
          refine ⟨by simp [catLines], by cases didWrite <;> simp, ?_, ?_⟩
          · intro u hu
            simp only [List.mem_singleton] at hu
            subst hu
            exact ⟨⟨p, List.mem_cons_self p rest, rfl⟩, hskip⟩
          · intro hie
            subst hie
            rw [chapter_to_txt_ok_noerr hctx]
            simp
        | false =>
          rw [hcap] at hok
          simp only [if_false, Bool.false_eq_true] at hok
          cases hrec : scrapeLoop um ie cl f w m o rest (total + 1) with
          | error e => rw [hrec] at hok; exact absurd hok (by simp)
          | ok out' =>
            rw [hrec] at hok
            dsimp only at hok
            injection hok with h
            subst h
            obtain ⟨h1, h2, h3, h4⟩ := ih hrec
            refine ⟨?_, ?_, ?_, ?_⟩
            · simp [catLines, h1, List.append_assoc]
            · cases didWrite
              · simp only [Bool.false_eq_true, if_false, List.nil_append]
                exact h2.trans (List.subset_cons_self _ _)
              · simp only [if_true, List.singleton_append]
                exact List.cons_subset_cons _ h2
            · intro u hu
              rcases List.mem_cons.mp hu with rfl | hu'
              · exact ⟨⟨p, List.mem_cons_self p rest, rfl⟩, hskip⟩
              · obtain ⟨⟨p', hp', hup⟩, hcond⟩ := h3 u hu'
                exact ⟨⟨p', List.mem_cons_of_mem _ hp', hup⟩, hcond⟩
            · intro hie
              have hd : didWrite = true := by
                rw [hie] at hctx
                exact chapter_to_txt_ok_noerr hctx
              simp [hd, h4 hie]


/-- With a falsy chapter limit and all fetches and writes succeeding, the
loop processes exactly the non-skipped chapters, in order. -/
theorem scrapeLoop_no_cap {um ie : Bool} {cl : Option Int}
    (hcl : cl = none ∨ cl = some 0) (m o : PyStr) :
    ∀ (paths : List PyStr) (total : Nat),
    scrapeLoop um ie cl (fun _ => true) (fun _ => true) m o paths total =
      .ok ⟨remainingChapters um o m paths, remainingChapters um o m paths,
           catLines (remainingChapters um o m paths),
           total + (remainingChapters um o m paths).length⟩ := by
  intro paths
  induction paths with
  | nil => intro total; simp [scrapeLoop, remainingChapters, catLines]
  | cons p rest ih =>
    intro total
    simp only [scrapeLoop]
    cases hskip : (um && order_contains o (m ++ p)) with
    | true =>
      simp only [if_true]
      rw [ih total]
      have hrem : remainingChapters um o m (p :: rest) =
          remainingChapters um o m rest := by
        simp only [remainingChapters, List.filter_cons, hskip, Bool.not_true,
          Bool.false_eq_true, if_false]
      rw [hrem]
    | false =>
      simp only [if_false, Bool.false_eq_true]
      have hct : chapter_to_txt ie true true = Except.ok true := by
        cases ie <;> rfl
      rw [hct]
      dsimp only
      rw [capReached_falsy hcl]
      simp only [if_false, Bool.false_eq_true]
      rw [ih (total + 1)]
      have hrem : remainingChapters um o m (p :: rest) =
          (m ++ p) :: remainingChapters um o m rest := by
        simp only [remainingChapters, List.filter_cons, hskip, Bool.not_false,
          if_true, List.map_cons]
      rw [hrem]
      simp only [Except.ok.injEq, LoopOut.mk.injEq, catLines, List.map_cons,
        List.flatten_cons, List.append_assoc, List.singleton_append,
        List.length_cons, if_true, List.cons_append, List.nil_append]
      exact ⟨trivial, trivial, trivial, by omega⟩

/-- First fiction of the cap-violation batch: a supported site reporting two
chapters. -/
def capRunFictionA : FictionInput :=
  ⟨"https://www.royalroad.com".data, true, some ([['/', 'a'], ['/', 'b']], ['T']), none⟩

/-- Second fiction of the cap-violation batch: a supported site reporting two
more chapters. -/
def capRunFictionB : FictionInput :=
  ⟨"https://www.royalroad.com".data, true, some ([['/', 'c'], ['/', 'd']], ['U']), none⟩

/-- C1: the claim states that a run with a positive chapterLimit over a batch
whose combined chapter count exceeds the limit fetches exactly chapterLimit
chapters.  The code's cap test (line 289) fires only on exact equality of
the shared run-wide counter, so after the first fiction's loop breaks at the
cap, the second fiction's increments step past the limit and the test never
fires again: with chapterLimit = 2 over two fictions of two chapters each,
the embedded run fetches all 4 chapters, contradicting the claim (and the
code's own docstring for chapter_limit). -/
theorem C1_cap_overrun_eval :
    (config_process false false (some 2) (fun _ => true) (fun _ => true)
      [capRunFictionA, capRunFictionB] 0).map (fun r => r.2) = .ok 4 := rfl

/-- A supported fiction whose discovery request fails at the HTTP level. -/
def fetchFailFiction : FictionInput :=
  ⟨"https://www.royalroad.com".data, false, none, none⟩

/-- C2 counterexample: with ignoreErrors = true, a transport/HTTP failure
during discovery is not swallowed: `raise_for_status` fires before the
gated try/except in `scrape_chapters`, and the batch loop of
`_config_process` catches only UnsupportedSiteError, so the whole batch
aborts with the error — refuting "when ignoreErrors is true the error is
swallowed and processing continues". -/
theorem C2_fetch_error_not_swallowed_cex :
    scrape_chapters true false none = .error .httpError ∧
    config_process false true none (fun _ => true) (fun _ => true)
      [fetchFailFiction] 0 = .error .httpError :=
  ⟨rfl, rfl⟩

/-- C2 amended: a FetchError (transport/HTTP failure) during discovery or
chapter fetch always propagates to the caller, for both values of
ignoreErrors; ignoreErrors gates only the AttributeError (structure-absent)
path of discovery. -/
theorem C2_fetch_error_ungated (ignore_errors : Bool)
    (parsed : Option (List PyStr × PyStr)) (writeOk : Bool) :
    scrape_chapters ignore_errors false parsed = .error .httpError ∧
    chapter_to_txt ignore_errors false writeOk = .error .httpError ∧
    scrape_chapters ignore_errors true none =
      (if ignore_errors then .ok ([], []) else .error .attributeError) := by
  refine ⟨rfl, rfl, ?_⟩
  cases ignore_errors <;> rfl

/-- C3 counterexample: the membership test used to decide whether a chapter
was already fetched is Python substring containment, not an exact-full-line
test: for the one-line log "xa\n" and candidate URL "a", the code's test
returns true although "a" is not a full line of the log — a partial-URL
(proper-suffix) false positive, refuting the claimed "if and only if". -/
theorem C3_substring_not_exact_line_cex :
    order_contains ['x', 'a', '\n'] ['a'] = true ∧
    ¬ specLineMember ['x', 'a', '\n'] ['a'] :=
  ⟨by decide, by decide⟩

/-- C3 amended: the membership test is substring containment of the URL
followed by its line terminator; every exact-full-line occurrence still
tests positive (no false negatives), but — per the counterexample — a URL
occurring as a proper suffix of a longer logged line also tests positive. -/
theorem C3_membership_amended (order url : PyStr)
    (h : specLineMember order url) : order_contains order url = true :=
  specLineMember_contains h

/-- Witness for C3_membership_amended at the one-line log "a\n". -/
theorem C3_membership_amended_witness :
    order_contains ['a', '\n'] ['a'] = true :=
  C3_membership_amended ['a', '\n'] ['a'] (by decide)

/-- C4 counterexample: in a run with ignoreErrors set, a chapter whose
artifact write fails (OSError swallowed inside try_write) is still appended
to new_order and hence recorded in the Order Log: for master "m" and
chapter path "a" with the write failing, the loop returns normally with
new_order = "ma\n" — whose single full line is the URL "ma" — while the
written-artifact trace is empty, refuting the claim for such runs. -/
theorem C4_failed_write_logged_cex :
    scrapeLoop false true none (fun _ => true) (fun _ => false)
      ['m'] [] [['a']] 0 = .ok ⟨[['m', 'a']], [], ['m', 'a', '\n'], 1⟩ ∧
    (pySplitNL ['m', 'a', '\n']).dropLast = [['m', 'a']] :=
  ⟨rfl, by decide⟩

/-- C4 amended: when ignoreErrors is false, every full line of the Order Log
text written at the end of the fiction's loop is the fully-qualified URL of
a chapter whose artifact was successfully written (a write failure raises
before the log append, aborting the function before any log write); the
guarantee does not extend to runs with ignoreErrors set. -/
theorem C4_log_implies_written_amended (update_mode : Bool)
    (chapter_limit : Option Int) (fetchOk writeOk : PyStr → Bool)
    (master order : PyStr) (paths : List PyStr) (total : Nat) (out : LoopOut)
    (hok : scrapeLoop update_mode false chapter_limit fetchOk writeOk
      master order paths total = .ok out)
    (hnl : ∀ p ∈ paths, '\n' ∉ master ++ p) :
    ∀ u ∈ (pySplitNL out.new_order).dropLast, u ∈ out.written := by
  obtain ⟨h1, _, h3, h4⟩ := scrapeLoop_ok_spec hok
  have hfl : ∀ u ∈ out.fetched, '\n' ∉ u := by
    intro u hu
    obtain ⟨⟨p, hp, rfl⟩, _⟩ := h3 u hu
    exact hnl p hp
  rw [h1, pySplitNL_catLines out.fetched hfl, List.dropLast_concat, h4 rfl]
  exact fun u hu => hu

/-- Witness for C4_log_implies_written_amended at a one-chapter run. -/
theorem C4_log_implies_written_witness :
    ['m', 'a'] ∈ ([[ 'm', 'a' ]] : List PyStr) :=
  C4_log_implies_written_amended false none (fun _ => true) (fun _ => true)
    ['m'] [] [['a']] 0 ⟨[['m', 'a']], [['m', 'a']], ['m', 'a', '\n'], 1⟩
    rfl (by decide) ['m', 'a'] (by decide)

/-- C5: in update (resume) mode, a chapter whose fully-qualified URL is
already present as an exact line of the Order Log is never passed to the
adapter's fetch (it is not in the fetched trace of a normally-returning
loop), and its on-disk artifact is untouched (it is not in the
written-artifact trace either). -/
theorem C5_logged_chapter_not_refetched (ignore_errors : Bool)
    (chapter_limit : Option Int) (fetchOk writeOk : PyStr → Bool)
    (master order path : PyStr) (paths : List PyStr) (total : Nat)
    (out : LoopOut)
    (hmem : specLineMember order (master ++ path))
    (hok : scrapeLoop true ignore_errors chapter_limit fetchOk writeOk
      master order paths total = .ok out) :
    master ++ path ∉ out.fetched ∧ master ++ path ∉ out.written := by
  obtain ⟨_, h2, h3, _⟩ := scrapeLoop_ok_spec hok
  have hf : master ++ path ∉ out.fetched := by
    intro hmemf
    obtain ⟨_, hcond⟩ := h3 _ hmemf
    rw [Bool.true_and, specLineMember_contains hmem] at hcond
    exact absurd hcond (by decide)
  exact ⟨hf, fun hw => hf (h2 hw)⟩

/-- Witness for C5_logged_chapter_not_refetched: a two-chapter fiction whose
first chapter is already logged; the loop fetches only the second. -/
theorem C5_logged_chapter_not_refetched_witness :
    ['m', 'a'] ∉ ([[ 'm', 'b' ]] : List PyStr) ∧
    ['m', 'a'] ∉ ([[ 'm', 'b' ]] : List PyStr) :=
  C5_logged_chapter_not_refetched false none (fun _ => true) (fun _ => true)
    ['m'] ['m', 'a', '\n'] ['a'] [['a'], ['b']] 0
    ⟨[['m', 'b']], [['m', 'b']], ['m', 'b', '\n'], 1⟩ (by decide) rfl

set_option maxRecDepth 8192 in
/-- C6 counterexample: the code derives the Storage Folder Name with no
truncation — `_scrap_basic` only replaces spaces and strips the illegal
characters; the 255-code-unit cut exists solely in `gen_filepath` for
chapter filenames.  For a 256-character title the derived folder name keeps
all 256 characters and differs from the claimed truncated value. -/
theorem C6_folder_name_not_truncated_cex :
    folder_name (List.replicate 256 'a') ≠
      specStorageFolderName (List.replicate 256 'a') ∧
    (folder_name (List.replicate 256 'a')).length = 256 :=
  ⟨by decide, by decide⟩

/-- C6 amended: the Storage Folder Name equals the site-reported title with
spaces replaced by underscores and the filesystem-illegal characters
stripped, with no truncation; it coincides with the claimed 255-truncated
value exactly when the sanitized title is at most 255 code units. -/
theorem C6_folder_name_amended (title : PyStr)
    (h : (folder_name title).length ≤ 255) :
    folder_name title = specStorageFolderName title := by
  show folder_name title = (folder_name title).take 255
  rw [List.take_of_length_le h]

/-- Witness for C6_folder_name_amended at the short title "a b". -/
theorem C6_folder_name_amended_witness :
    folder_name ['a', ' ', 'b'] = specStorageFolderName ['a', ' ', 'b'] :=
  C6_folder_name_amended ['a', ' ', 'b'] (by decide)

/-- C7: a URL whose origin has no exact match in the adapter registry raises
UnsupportedSiteError, which the batch loop catches; the fiction is skipped
(recorded as none, counter unchanged) and the batch continues with the
remaining URLs — identically for both values of the ignore-errors flag,
since both branches of the handler reach the next iteration. -/
theorem C7_unsupported_site_skips_only (update_mode ignore_errors : Bool)
    (chapter_limit : Option Int) (fetchOk writeOk : PyStr → Bool)
    (inp : FictionInput) (rest : List FictionInput) (total : Nat)
    (h : supported_sites.contains inp.master = false) :
    config_process update_mode ignore_errors chapter_limit fetchOk writeOk
      (inp :: rest) total =
    (config_process update_mode ignore_errors chapter_limit fetchOk writeOk
      rest total).map (fun r => (none :: r.1, r.2)) := by
  have hnm : inp.master ∉ supported_sites := by simpa using h
  have hb : scrape_and_save_fiction update_mode ignore_errors chapter_limit
      fetchOk writeOk inp total = .error .unsupportedSiteError := by
    simp [scrape_and_save_fiction, scrap_basic, hnm]
  simp only [config_process, hb]
  cases ignore_errors <;>
    cases config_process update_mode false chapter_limit fetchOk writeOk rest total <;>
    cases config_process update_mode true chapter_limit fetchOk writeOk rest total <;>
    simp [Except.map]

/-- A fiction whose origin "x" is not in the adapter registry. -/
def unknownSiteFiction : FictionInput := ⟨['x'], true, some ([], []), none⟩

/-- Witness for C7_unsupported_site_skips_only on a one-element batch. -/
theorem C7_unsupported_site_skips_only_witness :
    config_process false false none (fun _ => true) (fun _ => true)
      [unknownSiteFiction] 0 = .ok ([none], 0) :=
  Eq.trans
    (C7_unsupported_site_skips_only false false none (fun _ => true)
      (fun _ => true) unknownSiteFiction [] 0 (by decide)) rfl

/-- C8: a fiction whose discovery returns zero chapters triggers the early
return of `_scrape_and_save_fiction` (lines 257-260): no Order Log write
occurs for that fiction (logWrite = none) and the run-wide scraped-chapter
statistic is returned unchanged. -/
theorem C8_zero_chapters_no_log_write (update_mode ignore_errors : Bool)
    (chapter_limit : Option Int) (fetchOk writeOk : PyStr → Bool)
    (inp : FictionInput) (total : Nat) (master folder : PyStr)
    (hdisc : scrap_basic ignore_errors inp = .ok (master, folder, [])) :
    scrape_and_save_fiction update_mode ignore_errors chapter_limit fetchOk
      writeOk inp total = .ok ⟨[], [], none, total⟩ := by
  simp [scrape_and_save_fiction, hdisc]

/-- A supported fiction whose discovery reports zero chapters. -/
def emptyFiction : FictionInput :=
  ⟨"https://www.royalroad.com".data, true, some ([], ['T']), none⟩

/-- Witness for C8_zero_chapters_no_log_write with counter 5. -/
theorem C8_zero_chapters_no_log_write_witness :
    scrape_and_save_fiction false false none (fun _ => true) (fun _ => true)
      emptyFiction 5 = .ok ⟨[], [], none, 5⟩ :=
  C8_zero_chapters_no_log_write false false none (fun _ => true) (fun _ => true)
    emptyFiction 5 "https://www.royalroad.com".data (folder_name ['T']) rfl

/-- C9: Order Log round-trip — persisting N fully-qualified chapter URLs in
create mode (one per line, each terminated by a line break, replacing any
prior contents) and reloading via `_get_order` reproduces exactly those N
lines in the same order, for URLs without embedded line terminators. -/
theorem C9_order_log_roundtrip (urls : List PyStr) (existing : PyStr)
    (h : ∀ u ∈ urls, '\n' ∉ u) :
    (pySplitNL (get_order (some (persist_order false existing
      (catLines urls))))).dropLast = urls := by
  show (pySplitNL (catLines urls)).dropLast = urls
  rw [pySplitNL_catLines urls h, List.dropLast_concat]

/-- Witness for C9_order_log_roundtrip with two URLs over prior contents. -/
theorem C9_order_log_roundtrip_witness :
    (pySplitNL (get_order (some (persist_order false ['z']
      (catLines [['a'], ['b']]))))).dropLast = [['a'], ['b']] :=
  C9_order_log_roundtrip [['a'], ['b']] ['z'] (by decide)

/-- C10: when chapter_limit is Python-falsy (None, i.e. absent, or 0) the
run-wide cap is disabled entirely — the cap test short-circuits before the
equality is consulted, and the loop fetches every remaining (non-skipped)
chapter of the fiction rather than zero chapters, advancing the counter by
their number. -/
theorem C10_falsy_limit_disables_cap (update_mode ignore_errors : Bool)
    (chapter_limit : Option Int)
    (h : chapter_limit = none ∨ chapter_limit = some 0)
    (master order : PyStr) (paths : List PyStr) (total : Nat) :
    scrapeLoop update_mode ignore_errors chapter_limit (fun _ => true)
      (fun _ => true) master order paths total =
    .ok ⟨remainingChapters update_mode order master paths,
         remainingChapters update_mode order master paths,
         catLines (remainingChapters update_mode order master paths),
         total + (remainingChapters update_mode order master paths).length⟩ :=
  scrapeLoop_no_cap h master order paths total

/-- Witness for C10_falsy_limit_disables_cap: limit None, two chapters. -/
theorem C10_falsy_limit_disables_cap_witness :
    scrapeLoop false false none (fun _ => true) (fun _ => true)
      ['m'] [] [['a'], ['b']] 0 =
    .ok ⟨remainingChapters false [] ['m'] [['a'], ['b']],
         remainingChapters false [] ['m'] [['a'], ['b']],
         catLines (remainingChapters false [] ['m'] [['a'], ['b']]),
         0 + (remainingChapters false [] ['m'] [['a'], ['b']]).length⟩ :=
  C10_falsy_limit_disables_cap false false none (Or.inl rfl) ['m'] [] [['a'], ['b']] 0

end NovelScrapper
